import Mathlib

/-!
Shallow embedding of the sweep/zoom state engine of
`src/Components/PanoramicDialog.cpp` (SigDigger).

Modelling conventions:
* `qint64` values are modelled as `Int`; C++ `/` on `qint64` truncates
  toward zero and is modelled by `Int.tdiv`.
* `SUFREQ`/`double` spin-box values are modelled as `ℚ` (the dialog holds
  frequencies in Hz; `static_cast<qint64>` of a double is truncation toward
  zero, modelled by `truncQ`).  Where a `qint64` is compared against a
  `double` (`getZoomRange`), the spin values are taken at integral Hz, so
  the promoted comparison coincides with the `Int` comparison.
* `float` PSD samples are only ever copied, never inspected, by this code;
  the sample type is a type parameter `α`.  The text rendering that
  `std::ostream` performs at `setprecision(digits10)` is abstracted as a
  parameter `fmt : α → String` applied to each sample in order.
* Qt widgets (`m_waterfall`, spin boxes, labels) are external collaborators;
  their setters are modelled as field updates on a record of the last
  values handed to them.  `m_waterfall` may be null, modelled as `Option`;
  a call through a null pointer (undefined behaviour in C++) is modelled as
  a no-op.
* `emit detailChanged(min, max, noHop)` is modelled by returning the
  emitted triple as an `Option (Int × Int × Bool)` next to the new state.
-/

/-- Truncation of a rational toward zero, the semantics of
`static_cast<qint64>` applied to a `double`. -/
def truncQ (q : ℚ) : Int :=
  q.num.tdiv (q.den : Int)

/-- Model of `SavedSpectrum` (PanoramicDialog.h): the exportable snapshot,
holding the last fed window.  The C++ field `end` is spelled `end_`. -/
structure SavedSpectrum (α : Type) where
  start : Int
  end_ : Int
  data : List α
deriving DecidableEq

/-- Model of `SavedSpectrum::set` (PanoramicDialog.cpp:36-42): assigns the
window bounds and copies the sample block. -/
def SavedSpectrum.set (_sp : SavedSpectrum α) (start end_ : Int) (data : List α) :
    SavedSpectrum α :=
  ⟨start, end_, data⟩

/-- Body of the sample loop of `SavedSpectrum::exportToFile`
(PanoramicDialog.cpp:62-63): `for (auto p : data) of << p << " ";`. -/
def psdBody (fmt : α → String) : List α → String
  | [] => ""
  | p :: rest => fmt p ++ " " ++ psdBody fmt rest

/-- Model of `SavedSpectrum::exportToFile` (PanoramicDialog.cpp:44-68).
`canOpen` stands for `of.is_open()` on the chosen path; when false the
function returns `false` (= `none` here, the IoError signal).  Otherwise it
writes the header comment block, the `freqMin`/`freqMax` lines and the
`PSD` line and returns `true` (= `some` of the produced text). -/
def SavedSpectrum.exportToFile (sp : SavedSpectrum α) (fmt : α → String)
    (canOpen : Bool) : Option String :=
  if !canOpen then
    none
  else
    some ("%\n% Panoramic Spectrum file generated by SigDigger\n%\n\n"
      ++ "freqMin = " ++ toString sp.start ++ ";\n"
      ++ "freqMax = " ++ toString sp.end_ ++ ";\n"
      ++ "PSD = [ " ++ psdBody fmt sp.data ++ "];\n")

/-- The composite key used by the gain store
(PanoramicDialog.cpp:131,141,155): `"gain." + dev + "." + name`. -/
def fullGainName (dev name : String) : String :=
  "gain." ++ dev ++ "." ++ name

/-- Upsert on an association list, the behaviour of
`std::map::operator[]` followed by assignment: replace the value of an
existing key, otherwise append the new binding. -/
def mapSet : List (String × ℚ) → String → ℚ → List (String × ℚ)
  | [], k, v => [(k, v)]
  | (k', v') :: rest, k, v =>
      if k' = k then (k, v) :: rest else (k', v') :: mapSet rest k v

/-- Model of `PanoramicDialogConfig`, restricted to the gain map
`std::map<std::string, SUFLOAT> gains` that the gain accessors use.
`SUFLOAT` values are modelled as `ℚ`. -/
structure PanoramicDialogConfig where
  gains : List (String × ℚ)
deriving DecidableEq

/-- Model of `PanoramicDialogConfig::hasGain` (PanoramicDialog.cpp:126-134):
membership of `"gain." + dev + "." + name` in the gain map. -/
def PanoramicDialogConfig.hasGain (c : PanoramicDialogConfig)
    (dev name : String) : Bool :=
  (c.gains.lookup (fullGainName dev name)).isSome

/-- Model of `PanoramicDialogConfig::getGain` (PanoramicDialog.cpp:136-147):
the stored value for `"gain." + dev + "." + name`, or `0` if unset. -/
def PanoramicDialogConfig.getGain (c : PanoramicDialogConfig)
    (dev name : String) : ℚ :=
  (c.gains.lookup (fullGainName dev name)).getD 0

/-- Model of `PanoramicDialogConfig::setGain` (PanoramicDialog.cpp:149-158):
upsert of the value under `"gain." + dev + "." + name`. -/
def PanoramicDialogConfig.setGain (c : PanoramicDialogConfig)
    (dev name : String) (val : ℚ) : PanoramicDialogConfig :=
  ⟨mapSet c.gains (fullGainName dev name) val⟩

/-- Model of `FrequencyBand` as deserialized by
`PanoramicDialog::deserializeFrequencyBand` (PanoramicDialog.cpp:714-729);
the `QColor` is kept as its textual spec. -/
structure FrequencyBand where
  min : Int
  max : Int
  primary : String
  secondary : String
  footnotes : String
  color : String
deriving DecidableEq

/-- Model of `FrequencyAllocationTable`: a named ordered list of bands. -/
structure FrequencyAllocationTable where
  name : String
  bands : List FrequencyBand
deriving DecidableEq

/-- Model of the inner band loop of `PanoramicDialog::deserializeFATs`
(PanoramicDialog.cpp:750-755): each raw band entry either deserializes to a
`FrequencyBand` (`Except.ok`) or makes the external `Suscan` accessors
throw (`Except.error`); the `try { pushBand(...) } catch {}` body appends
successful entries in order and silently skips throwing ones. -/
def pushBandsCaught : List (Except Unit FrequencyBand) → List FrequencyBand
  | [] => []
  | Except.ok b :: rest => b :: pushBandsCaught rest
  | Except.error _ :: rest => pushBandsCaught rest

/-- Model of the table loop of `PanoramicDialog::deserializeFATs`
(PanoramicDialog.cpp:739-758) on its first run (`m_FATs` empty): every raw
table descriptor `(name, bands)` yields one allocation table holding the
bands that deserialized without throwing, in order. -/
def deserializeFATs
    (raw : List (String × List (Except Unit FrequencyBand))) :
    List FrequencyAllocationTable :=
  raw.map fun t => ⟨t.1, pushBandsCaught t.2⟩

/-- Shared clamp-and-shift window computation, inlined verbatim at both
`PanoramicDialog::getZoomRange` (PanoramicDialog.cpp:427-446) and
`PanoramicDialog::onNewFftCenterFreq` (PanoramicDialog.cpp:1082-1104):
center the window on `fc`, clamp each bound to the scan range (border
taken at `≤`/`≥`), and when exactly one side clamped shift the other bound
to preserve `span`. -/
def clampWindow (fc span minFreq maxFreq : Int) : Int × Int :=
  let mn := fc - span.tdiv 2
  let mx := fc + span.tdiv 2
  let leftBorder := mn ≤ minFreq
  let rightBorder := mx ≥ maxFreq
  let mn' := if leftBorder then minFreq else mn
  let mx' := if rightBorder then maxFreq else mx
  if leftBorder ∧ ¬ rightBorder then (mn', mn' + span)
  else if rightBorder ∧ ¬ leftBorder then (mx' - span, mx')
  else (mn', mx')

/-- Model of `PanoramicDialog::getZoomRange` (PanoramicDialog.cpp:418-449):
window centered at `centerFreq + fftCenterFreq` of width `spanFreq`,
clamped and shifted by `clampWindow`; `noHop` is true when the resulting
width is at most `minBwForZoom * relBw` (a `float` comparison, modelled
over `ℚ`). -/
def getZoomRange (centerFreq fftCenterFreq spanFreq minFreq maxFreq
    minBwForZoom : Int) (relBw : ℚ) : Int × Int × Bool :=
  let fc := centerFreq + fftCenterFreq
  let w := clampWindow fc spanFreq minFreq maxFreq
  (w.1, w.2, decide (((w.2 - w.1 : Int) : ℚ) ≤ (minBwForZoom : ℚ) * relBw))

/-- Model of the waterfall widget (external `Waterfall`/`GLWaterfall`
collaborator) as the record of the last values handed to its setters.
`partialFftData` holds the last partial FFT block fed via
`setNewPartialFftData`, or `none` after `clearPartialFftData`. -/
structure WaterfallState (α : Type) where
  centerFreq : Int
  fftCenterFreq : Int
  spanFreq : Int
  sampleRate : Int
  freqUnits : Int
  filterOffset : Int
  filterBw : Int
  horizontalZoomReset : Bool
  partialFftData : Option (List α × Int × Int)
  demodRangeMin : ℚ
  demodRangeMax : ℚ
  demodLowCut : ℚ
  demodHighCut : ℚ
deriving DecidableEq

/-- Model of the `PanoramicDialog` member state touched by the sweep/zoom
engine: the range spin boxes, the saved snapshot, the frame counter, the
fixed-frequency-mode flag, the current zoom bandwidth, the run flag, the
export-button enable, the zoom threshold parameters and the (possibly
absent) waterfall widget. -/
structure PanoramicDialogState (α : Type) where
  rangeStartSpin : ℚ
  rangeEndSpin : ℚ
  freqStart : Int
  freqEnd : Int
  saved : SavedSpectrum α
  frames : Nat
  fixedFreqMode : Bool
  currBw : Int
  running : Bool
  exportEnabled : Bool
  demodFreq : Int
  minBwForZoom : Int
  relBwSlider : Int
  waterfall : Option (WaterfallState α)
deriving DecidableEq

/-- Model of `PanoramicDialog::getRelBw` (PanoramicDialog.cpp:815-819):
the relative-bandwidth slider value over `100.f`. -/
def getRelBw (s : PanoramicDialogState α) : ℚ :=
  (s.relBwSlider : ℚ) / 100

/-- Model of `PanoramicDialog::getFrequencyUnits`
(PanoramicDialog.cpp:651-667). -/
def getFrequencyUnits (freq0 : Int) : Int :=
  let freq := if freq0 < 0 then -freq0 else freq0
  if freq < 1000 then 1
  else if freq < 1000000 then 1000
  else if freq < 1000000000 then 1000000
  else 1000000000

/-- Model of `PanoramicDialog::redrawMeasures` (PanoramicDialog.cpp:787-807):
recomputes `m_demodFreq` from the waterfall filter offset and center
frequency (label updates are UI-only and not part of the state). -/
def redrawMeasures (s : PanoramicDialogState α) : PanoramicDialogState α :=
  match s.waterfall with
  | none => s
  | some w => { s with demodFreq := w.filterOffset + w.centerFreq }

/-- Model of `PanoramicDialog::adjustRanges` (PanoramicDialog.cpp:606-642):
swap the range spin values if reversed; then, when a waterfall exists,
push units/span/sample-rate/center to it, reset its horizontal zoom, clear
its partial FFT data, and set the demodulation ranges and the default
hi/low cut frequencies (`demodBw = bw/20` capped at `4000000000`, applied
as `±demodBw/2`). -/
def adjustRanges (s0 : PanoramicDialogState α) : PanoramicDialogState α :=
  let s :=
    if s0.rangeStartSpin > s0.rangeEndSpin then
      { s0 with rangeStartSpin := s0.rangeEndSpin,
                rangeEndSpin := s0.rangeStartSpin }
    else s0
  match s.waterfall with
  | none => s
  | some w =>
    let minFreq : ℚ := s.rangeStartSpin
    let maxFreq : ℚ := s.rangeEndSpin
    let bw : ℚ := maxFreq - minFreq
    let demodBw0 : ℚ := bw / 20
    let demodBw : ℚ := if demodBw0 > 4000000000 then 4000000000 else demodBw0
    { s with waterfall := some { w with
        freqUnits := getFrequencyUnits (truncQ maxFreq),
        spanFreq := truncQ (maxFreq - minFreq),
        sampleRate := truncQ (maxFreq - minFreq),
        centerFreq := (truncQ (maxFreq + minFreq)).tdiv 2,
        horizontalZoomReset := true,
        partialFftData := none,
        demodRangeMin := -bw / 2,
        demodRangeMax := bw / 2,
        demodLowCut := -demodBw / 2,
        demodHighCut := demodBw / 2 } }

/-- Model of the slot `PanoramicDialog::onFreqRangeChanged`
(PanoramicDialog.cpp:1003-1007), fired when either range spin box changes:
it only calls `adjustRanges`. -/
def onFreqRangeChanged (s : PanoramicDialogState α) : PanoramicDialogState α :=
  adjustRanges s

/-- A user range edit `setRange(a, b)`: both spin boxes take the supplied
values, then `onFreqRangeChanged` runs (PanoramicDialog.cpp:266-276
connects both spins to that slot). -/
def setRange (s : PanoramicDialogState α) (a b : ℚ) : PanoramicDialogState α :=
  onFreqRangeChanged { s with rangeStartSpin := a, rangeEndSpin := b }

/-- Model of `PanoramicDialog::feed` (PanoramicDialog.cpp:502-526): update
the cached window bounds, overwrite the saved snapshot via
`SavedSpectrum::set`, enable the export button, hand the block to the
waterfall, increment the frame counter, and redraw the measures.  There is
no validation of `freqStart`, `freqEnd` or the sample block. -/
def feed (s : PanoramicDialogState α) (freqStart freqEnd : Int)
    (data : List α) : PanoramicDialogState α :=
  let s1 :=
    if s.freqStart ≠ freqStart ∨ s.freqEnd ≠ freqEnd then
      { s with freqStart := freqStart, freqEnd := freqEnd }
    else s
  let s2 := { s1 with saved := s1.saved.set freqStart freqEnd data }
  let s3 := { s2 with exportEnabled := true }
  let s4 := { s3 with waterfall := s3.waterfall.map fun (w : WaterfallState α) =>
                { w with partialFftData := some (data, freqStart, freqEnd) } }
  let s5 := { s4 with frames := s4.frames + 1 }
  redrawMeasures s5

/-- Model of the slot `PanoramicDialog::onNewZoomLevel`
(PanoramicDialog.cpp:1041-1051): recompute the zoom range, store its
`noHop` verdict in `m_fixedFreqMode` and its width in `m_currBw`, and emit
`detailChanged(min, max, m_fixedFreqMode)` when running. -/
def onNewZoomLevel (s : PanoramicDialogState α) :
    PanoramicDialogState α × Option (Int × Int × Bool) :=
  match s.waterfall with
  | none => (s, none)
  | some w =>
    let r := getZoomRange w.centerFreq w.fftCenterFreq w.spanFreq
        (truncQ s.rangeStartSpin) (truncQ s.rangeEndSpin)
        s.minBwForZoom (getRelBw s)
    let s1 := { s with fixedFreqMode := r.2.2, currBw := r.2.1 - r.1 }
    (s1, if s1.running then some (r.1, r.2.1, s1.fixedFreqMode) else none)

/-- Model of the slot `PanoramicDialog::onNewFftCenterFreq`
(PanoramicDialog.cpp:1073-1107): when running, re-center the window of
width `m_currBw` on the new FFT center (an offset from the waterfall
center), clamp and shift it exactly as `getZoomRange` does, and emit
`detailChanged(min, max, m_fixedFreqMode)` with the stored flag.  No
member of the dialog state is written. -/
def onNewFftCenterFreq (s : PanoramicDialogState α) (freq0 : Int) :
    PanoramicDialogState α × Option (Int × Int × Bool) :=
  if !s.running then (s, none)
  else
    match s.waterfall with
    | none => (s, none)
    | some w =>
      let freq := freq0 + w.centerFreq
      let span := s.currBw
      let wnd := clampWindow freq span
          (truncQ s.rangeStartSpin) (truncQ s.rangeEndSpin)
      (s, some (wnd.1, wnd.2, s.fixedFreqMode))

/-! Helper lemmas. -/

theorem feed_saved (s : PanoramicDialogState α) (fs fe : Int) (d : List α) :
    (feed s fs fe d).saved = ⟨fs, fe, d⟩ := by
  unfold feed redrawMeasures SavedSpectrum.set
  by_cases h : s.freqStart ≠ fs ∨ s.freqEnd ≠ fe <;>
    simp only [h, if_pos, if_neg, ite_true, ite_false, not_false_eq_true] <;>
    rcases hw : s.waterfall with _ | w <;> simp [hw]

theorem foldl_append_shift (l : List String) (a : String) :
    l.foldl (· ++ ·) a = a ++ l.foldl (· ++ ·) "" := by
  induction l generalizing a with
  | nil => simp
  | cons x rest ih =>
    simp only [List.foldl_cons]
    rw [ih (a ++ x), ih ("" ++ x), String.append_assoc]
    simp

theorem join_cons (x : String) (l : List String) :
    String.join (x :: l) = x ++ String.join l := by
  simp only [String.join, List.foldl_cons]
  rw [foldl_append_shift]
  simp

theorem psdBody_eq_join (fmt : α → String) (l : List α) :
    psdBody fmt l = String.join (l.map fun p => fmt p ++ " ") := by
  induction l with
  | nil => rfl
  | cons p rest ih =>
    simp only [psdBody, List.map_cons, join_cons, ih]

theorem lookup_mapSet_self (l : List (String × ℚ)) (k : String) (v : ℚ) :
    (mapSet l k v).lookup k = some v := by
  induction l with
  | nil => simp [mapSet, List.lookup]
  | cons p rest ih =>
    obtain ⟨k', v'⟩ := p
    by_cases h : k' = k
    · simp [mapSet, h, List.lookup]
    · have hb : (k == k') = false := by simp [Ne.symm h]
      simp [mapSet, h, List.lookup, hb, ih]

theorem lookup_mapSet_ne (l : List (String × ℚ)) (k k' : String) (v : ℚ)
    (h : k' ≠ k) : (mapSet l k v).lookup k' = l.lookup k' := by
  have hb : (k' == k) = false := by simp [h]
  induction l with
  | nil => simp [mapSet, List.lookup, hb]
  | cons p rest ih =>
    obtain ⟨k0, v0⟩ := p
    by_cases h0 : k0 = k
    · subst h0
      simp [mapSet, List.lookup, hb]
    · by_cases h1 : k' = k0
      · subst h1
        simp [mapSet, h0, List.lookup]
      · have hb1 : (k' == k0) = false := by simp [h1]
        simp [mapSet, h0, List.lookup, hb1, ih]

theorem pushBandsCaught_append (a b : List (Except Unit FrequencyBand)) :
    pushBandsCaught (a ++ b) = pushBandsCaught a ++ pushBandsCaught b := by
  induction a with
  | nil => simp [pushBandsCaught]
  | cons x rest ih =>
    cases x <;> simp [pushBandsCaught, ih]

theorem pushBandsCaught_map_ok (l : List FrequencyBand) :
    pushBandsCaught (l.map Except.ok) = l := by
  induction l with
  | nil => rfl
  | cons b rest ih => simp [pushBandsCaught, ih]

theorem feed_eq (s : PanoramicDialogState α) (fs fe : Int) (d : List α) :
    feed s fs fe d = { s with
      freqStart := fs,
      freqEnd := fe,
      saved := ⟨fs, fe, d⟩,
      exportEnabled := true,
      waterfall := s.waterfall.map fun w =>
        { w with partialFftData := some (d, fs, fe) },
      frames := s.frames + 1,
      demodFreq := match s.waterfall with
        | none => s.demodFreq
        | some w => w.filterOffset + w.centerFreq } := by
  obtain ⟨rs, re, f0, f1, sv, fr, fx, cb, rn, ex, dm, mb, rb, wf⟩ := s
  unfold feed redrawMeasures SavedSpectrum.set
  rcases wf with _ | w <;> by_cases h : f0 ≠ fs ∨ f1 ≠ fe <;>
    simp [h] <;> (simp only [not_or, not_not] at h) <;> simp [h.1, h.2]

theorem adjustRanges_eq (s : PanoramicDialogState α) :
    adjustRanges s = { s with
      rangeStartSpin := min s.rangeStartSpin s.rangeEndSpin,
      rangeEndSpin := max s.rangeStartSpin s.rangeEndSpin,
      waterfall := s.waterfall.map fun w =>
        let minFreq := min s.rangeStartSpin s.rangeEndSpin
        let maxFreq := max s.rangeStartSpin s.rangeEndSpin
        let bw := maxFreq - minFreq
        let demodBw := if bw / 20 > 4000000000 then (4000000000 : ℚ) else bw / 20
        { w with
          freqUnits := getFrequencyUnits (truncQ maxFreq),
          spanFreq := truncQ (maxFreq - minFreq),
          sampleRate := truncQ (maxFreq - minFreq),
          centerFreq := (truncQ (maxFreq + minFreq)).tdiv 2,
          horizontalZoomReset := true,
          partialFftData := none,
          demodRangeMin := -bw / 2,
          demodRangeMax := bw / 2,
          demodLowCut := -demodBw / 2,
          demodHighCut := demodBw / 2 } } := by
  obtain ⟨rs, re, f0, f1, sv, fr, fx, cb, rn, ex, dm, mb, rb, wf⟩ := s
  unfold adjustRanges
  by_cases h : rs > re <;>
    rcases wf with _ | w <;>
      simp [h, min_def, max_def, le_of_lt, (not_lt.mp : ¬ rs > re → _)]

/-- Claim C2 counterexample: `feed` with `start = end = 5` and an empty
sample list is not rejected — it overwrites the previously stored snapshot
`(1, 2, [7])` with `(5, 5, [])`, so the snapshot is mutated. -/
theorem C2_cex :
    (feed (⟨0, 0, 0, 0, ⟨1, 2, [7]⟩, 0, false, 0, false, false, 0, 0, 100, none⟩ :
        PanoramicDialogState Nat) 5 5 []).saved = ⟨5, 5, []⟩ ∧
    (feed (⟨0, 0, 0, 0, ⟨1, 2, [7]⟩, 0, false, 0, false, false, 0, 0, 100, none⟩ :
        PanoramicDialogState Nat) 5 5 []).saved ≠ ⟨1, 2, [7]⟩ := by
  decide

/-- Claim C2 (corrected): `PanoramicDialog::feed` performs no validation at
all.  For every call, including `start ≥ end` and an empty sample
sequence, the stored snapshot is unconditionally replaced by exactly
`(start, end, samples)`, the export button is enabled, the cached window
bounds are updated and the frame counter is incremented; no `InvalidFrame`
signal exists in the code. -/
theorem C2_feed_unvalidated (s : PanoramicDialogState α) (fs fe : Int)
    (d : List α) :
    (feed s fs fe d).saved = ⟨fs, fe, d⟩ ∧
    (feed s fs fe d).frames = s.frames + 1 ∧
    (feed s fs fe d).exportEnabled = true ∧
    (feed s fs fe d).freqStart = fs ∧
    (feed s fs fe d).freqEnd = fe := by
  simp [feed_eq]

/-- Claim C3 counterexample: a successful range change (spins move from
`(1, 2)` to `(5, 10)`, with a waterfall present) leaves the previously
stored snapshot `(1, 2, [7])` and the fixed-mode flag `true` fully intact:
nothing invalidates the stitched snapshot and nothing resets the flag. -/
theorem C3_cex :
    (setRange (⟨1, 2, 1, 2, ⟨1, 2, [7]⟩, 1, true, 0, true, true, 0, 0, 100,
        some ⟨0, 0, 0, 0, 1, 0, 0, false, some ([7], 1, 2), 0, 0, 0, 0⟩⟩ :
        PanoramicDialogState Nat) 5 10).rangeStartSpin = 5 ∧
    (setRange (⟨1, 2, 1, 2, ⟨1, 2, [7]⟩, 1, true, 0, true, true, 0, 0, 100,
        some ⟨0, 0, 0, 0, 1, 0, 0, false, some ([7], 1, 2), 0, 0, 0, 0⟩⟩ :
        PanoramicDialogState Nat) 5 10).rangeEndSpin = 10 ∧
    (setRange (⟨1, 2, 1, 2, ⟨1, 2, [7]⟩, 1, true, 0, true, true, 0, 0, 100,
        some ⟨0, 0, 0, 0, 1, 0, 0, false, some ([7], 1, 2), 0, 0, 0, 0⟩⟩ :
        PanoramicDialogState Nat) 5 10).saved = ⟨1, 2, [7]⟩ ∧
    (setRange (⟨1, 2, 1, 2, ⟨1, 2, [7]⟩, 1, true, 0, true, true, 0, 0, 100,
        some ⟨0, 0, 0, 0, 1, 0, 0, false, some ([7], 1, 2), 0, 0, 0, 0⟩⟩ :
        PanoramicDialogState Nat) 5 10).fixedFreqMode = true := by
  decide

/-- Claim C3 (corrected): a range change (`setRange`, i.e. the
`onFreqRangeChanged` slot running `adjustRanges`) clears only the
waterfall's partial FFT data and resets its horizontal zoom; the saved
export snapshot (`m_saved`) and the fixed-frequency-mode flag
(`m_fixedFreqMode`) are never touched, so previously stitched data and the
stale fixed-mode decision both survive every range change. -/
theorem C3_range_change_effects (s : PanoramicDialogState α) (a b : ℚ) :
    (setRange s a b).saved = s.saved ∧
    (setRange s a b).fixedFreqMode = s.fixedFreqMode ∧
    ((setRange s a b).waterfall.map fun w => w.partialFftData)
      = s.waterfall.map (fun _ => none) ∧
    ((setRange s a b).waterfall.map fun w => w.horizontalZoomReset)
      = s.waterfall.map (fun _ => true) := by
  refine ⟨?_, ?_, ?_, ?_⟩ <;>
    simp [setRange, onFreqRangeChanged, adjustRanges_eq, Option.map_map,
      Function.comp] <;>
    cases s.waterfall <;> rfl

/-- Claim C4 counterexample: exporting a completely empty snapshot (no
frame ever fed) over an openable path does not signal anything like
`NothingToExport` — it succeeds and produces an output file with an empty
`PSD` list. -/
theorem C4_cex :
    SavedSpectrum.exportToFile (⟨0, 0, []⟩ : SavedSpectrum Nat)
        (fun n => toString n) true
      = some "%\n% Panoramic Spectrum file generated by SigDigger\n%\n\nfreqMin = 0;\nfreqMax = 0;\nPSD = [ ];\n" := by
  rfl

/-- Claim C4 (corrected): `SavedSpectrum::exportToFile` has no emptiness
check and no `NothingToExport` signal: for every empty snapshot and every
path that opens, it succeeds and writes the header plus `freqMin`,
`freqMax` and an empty `PSD` list.  The only guard in the code is at the
UI level: the export button is enabled by the first `feed` call. -/
theorem C4_export_empty_succeeds {α : Type} (st en : Int)
    (fmt : α → String) :
    SavedSpectrum.exportToFile (⟨st, en, []⟩ : SavedSpectrum α) fmt true
      = some ("%\n% Panoramic Spectrum file generated by SigDigger\n%\n\n"
        ++ "freqMin = " ++ toString st ++ ";\n"
        ++ "freqMax = " ++ toString en ++ ";\n"
        ++ "PSD = [ " ++ "" ++ "];\n") := by
  rfl

/-- Claim C5 (confirmed): after `feed(start, end, samples)`, exporting the
snapshot over a path that opens succeeds and writes exactly the
`%`-comment header block followed by `freqMin = <start>;`,
`freqMax = <end>;` and `PSD = [ v1 v2 ... vn ];` with every sample
rendered in order (the `std::ostream` float rendering at
`setprecision(digits10)` is abstracted as `fmt`); over a path that does
not open it fails with the IoError result (`none`). -/
theorem C5_export_format (s : PanoramicDialogState α) (st en : Int)
    (d : List α) (fmt : α → String) :
    SavedSpectrum.exportToFile ((feed s st en d).saved) fmt true
      = some ("%\n% Panoramic Spectrum file generated by SigDigger\n%\n\n"
        ++ "freqMin = " ++ toString st ++ ";\n"
        ++ "freqMax = " ++ toString en ++ ";\n"
        ++ "PSD = [ " ++ String.join (d.map fun p => fmt p ++ " ") ++ "];\n") ∧
    SavedSpectrum.exportToFile ((feed s st en d).saved) fmt false = none := by
  rw [feed_saved]
  exact ⟨by simp [SavedSpectrum.exportToFile, psdBody_eq_join], rfl⟩

/-- Claim C6 (confirmed): after `setRange(a, b)` the stored range is
normalized silently — the spin boxes read back `min a b ≤ max a b`
regardless of the order the two values were supplied in. -/
theorem C6_setRange_normalized (s : PanoramicDialogState α) (a b : ℚ) :
    (setRange s a b).rangeStartSpin ≤ (setRange s a b).rangeEndSpin ∧
    (setRange s a b).rangeStartSpin = min a b ∧
    (setRange s a b).rangeEndSpin = max a b := by
  refine ⟨?_, ?_, ?_⟩ <;>
    simp [setRange, onFreqRangeChanged, adjustRanges_eq, min_le_max]

/-- Claim C8 (confirmed): in `deserializeFATs`, a malformed band entry
(one whose deserialization throws, e.g. a bad raw object) is skipped in
place: the surrounding table keeps all its other valid bands in order, and
every preceding and following table is still loaded unchanged — the bad
entry neither empties the table nor aborts the load nor escapes as an
error. -/
theorem C8_fat_partial_tolerance
    (ts1 ts2 : List (String × List (Except Unit FrequencyBand)))
    (name : String) (pre post : List FrequencyBand) :
    deserializeFATs
        (ts1 ++ (name, pre.map Except.ok ++ Except.error () ::
          post.map Except.ok) :: ts2)
      = deserializeFATs ts1 ++ ⟨name, pre ++ post⟩ :: deserializeFATs ts2 := by
  simp [deserializeFATs, pushBandsCaught_append, pushBandsCaught_map_ok,
    pushBandsCaught]

/-- Claim C7 counterexample: the store is keyed by the dot-joined string
`"gain." + dev + "." + stage`, which is not injective in the pair: the
distinct pairs `("a.b", "c")` and `("a", "b.c")` collide, so setting the
gain of `("a", "b.c")` changes the read-back of `("a.b", "c")` from `0`
to `1`. -/
theorem C7_cex :
    (("a.b", "c") : String × String) ≠ ("a", "b.c") ∧
    PanoramicDialogConfig.getGain ⟨[]⟩ "a.b" "c" = 0 ∧
    PanoramicDialogConfig.getGain
        (PanoramicDialogConfig.setGain ⟨[]⟩ "a" "b.c" 1) "a.b" "c" = 1 := by
  decide

/-- Claim C7 (corrected): `getGain` returns `0` before any `setGain`;
after `setGain(dev, stage, v)`, `getGain(dev, stage) = v` and
`hasGain(dev, stage)` holds; and a `setGain` on another pair leaves
`getGain(dev, stage)` unchanged whenever the composed key strings
`"gain." + dev + "." + stage` differ — mere distinctness of the pairs is
not enough, because the dot-joined key can collide when names contain
dots. -/
theorem C7_gain_store (c : PanoramicDialogConfig)
    (dev stage dev' stage' : String) (v w : ℚ)
    (hk : fullGainName dev' stage' ≠ fullGainName dev stage) :
    PanoramicDialogConfig.getGain ⟨[]⟩ dev stage = 0 ∧
    (c.setGain dev stage v).getGain dev stage = v ∧
    (c.setGain dev stage v).hasGain dev stage = true ∧
    (c.setGain dev' stage' w).getGain dev stage = c.getGain dev stage := by
  refine ⟨rfl, ?_, ?_, ?_⟩
  · simp [PanoramicDialogConfig.getGain, PanoramicDialogConfig.setGain,
      lookup_mapSet_self]
  · simp [PanoramicDialogConfig.hasGain, PanoramicDialogConfig.setGain,
      lookup_mapSet_self]
  · simp [PanoramicDialogConfig.getGain, PanoramicDialogConfig.setGain,
      lookup_mapSet_ne _ _ _ _ (Ne.symm hk)]

theorem C7_gain_store_witness :
    fullGainName "x" "y" ≠ fullGainName "hackrf" "LNA" ∧
    (PanoramicDialogConfig.getGain ⟨[]⟩ "hackrf" "LNA" = 0 ∧
     ((⟨[]⟩ : PanoramicDialogConfig).setGain "hackrf" "LNA" 14).getGain
        "hackrf" "LNA" = 14 ∧
     ((⟨[]⟩ : PanoramicDialogConfig).setGain "hackrf" "LNA" 14).hasGain
        "hackrf" "LNA" = true ∧
     ((⟨[]⟩ : PanoramicDialogConfig).setGain "x" "y" 1).getGain
        "hackrf" "LNA" = PanoramicDialogConfig.getGain ⟨[]⟩ "hackrf" "LNA") :=
  ⟨by decide, C7_gain_store ⟨[]⟩ "hackrf" "LNA" "x" "y" 14 1 (by decide)⟩

theorem capHalf (B : ℚ) :
    (if 4000000000 < B / 20 then (4000000000 : ℚ) else B / 20) / 2
      = min (B / 20 / 2) 2000000000 := by
  by_cases hc : 4000000000 < B / 20
  · rw [if_pos hc, min_eq_right (by linarith)]
    norm_num
  · rw [if_neg hc, min_eq_left (by push_neg at hc; linarith)]

/-- Claim C9 (confirmed): after a range change, the default demodulation
cut frequencies handed to the waterfall are symmetric at
`±min(bandwidth/20/2, 2000000000)`: the code computes `demodBw =
bandwidth/20` capped at `4e9` and applies `±demodBw/2`, which equals a
half-width of `bandwidth/40` capped at 2 GHz per side. -/
theorem C9_default_demod_half_bandwidth (s : PanoramicDialogState α) :
    ((adjustRanges s).waterfall.map fun w => (w.demodLowCut, w.demodHighCut))
      = s.waterfall.map fun _ =>
          (-(min (|s.rangeEndSpin - s.rangeStartSpin| / 20 / 2) 2000000000),
            min (|s.rangeEndSpin - s.rangeStartSpin| / 20 / 2) 2000000000) := by
  have habs : max s.rangeStartSpin s.rangeEndSpin
      - min s.rangeStartSpin s.rangeEndSpin
      = |s.rangeEndSpin - s.rangeStartSpin| := by
    rcases le_total s.rangeStartSpin s.rangeEndSpin with h | h
    · rw [max_eq_right h, min_eq_left h, abs_of_nonneg (by linarith)]
    · rw [max_eq_left h, min_eq_right h, abs_of_nonpos (by linarith)]
      ring
  rw [adjustRanges_eq]
  cases hw : s.waterfall with
  | none => rfl
  | some w =>
    simp only [Option.map_map, Option.map_some, Function.comp]
    rw [habs]
    simp only [neg_div, capHalf]
    rfl

/-- Claim C1 counterexample: with scan range `[0, 10]`, requested span `20`
and requested center `-1`, only the left bound clamps, and the shift that
preserves the span pushes the right bound to `20`, outside the scan range:
the claimed invariant `windowMax ≤ scanRange.max` fails. -/
theorem C1_cex :
    (getZoomRange (-1) 0 20 0 10 0 0).2.1 = 20 ∧
    ¬ (getZoomRange (-1) 0 20 0 10 0 0).2.1 ≤ 10 := by
  decide

/-- Claim C1 (corrected): when `0 ≤ span ≤ scanRange.max - scanRange.min`,
the window computed by `getZoomRange` stays inside the scan range; its
width is exactly `span` whenever at least one side clamps, and
`2 * (span / 2)` (integer division, so `span` for even spans but
`span - 1` for odd ones) when no side clamps; and when both sides clamp
the window degenerates to the full scan range.  Without the bound
`span ≤ scanRange.max - scanRange.min` the window can leave the scan
range, as the counterexample shows. -/
theorem C1_zoom_window_clamped (cf fcf span minF maxF mbz : Int) (rb : ℚ)
    (hspan : 0 ≤ span) (hbw : span ≤ maxF - minF) :
    minF ≤ (getZoomRange cf fcf span minF maxF mbz rb).1 ∧
    (getZoomRange cf fcf span minF maxF mbz rb).2.1 ≤ maxF ∧
    ((cf + fcf - span.tdiv 2 ≤ minF ∨ maxF ≤ cf + fcf + span.tdiv 2) →
      (getZoomRange cf fcf span minF maxF mbz rb).2.1
        - (getZoomRange cf fcf span minF maxF mbz rb).1 = span) ∧
    (¬(cf + fcf - span.tdiv 2 ≤ minF ∨ maxF ≤ cf + fcf + span.tdiv 2) →
      (getZoomRange cf fcf span minF maxF mbz rb).2.1
        - (getZoomRange cf fcf span minF maxF mbz rb).1
        = 2 * span.tdiv 2) ∧
    ((cf + fcf - span.tdiv 2 ≤ minF ∧ maxF ≤ cf + fcf + span.tdiv 2) →
      (getZoomRange cf fcf span minF maxF mbz rb).1 = minF ∧
      (getZoomRange cf fcf span minF maxF mbz rb).2.1 = maxF) := by
  have htd : span.tdiv 2 = span / 2 := Int.tdiv_eq_ediv hspan (by norm_num)
  simp only [getZoomRange, clampWindow, ge_iff_le, htd]
  by_cases hL : cf + fcf - span / 2 ≤ minF <;>
    by_cases hR : maxF ≤ cf + fcf + span / 2 <;>
      simp only [hL, hR, if_true, if_false, not_true_eq_false,
        not_false_eq_true, and_true, and_false, true_and, false_and,
        and_self, ite_true, ite_false, true_or, or_true, false_or,
        or_false, or_self, true_implies, false_implies, implies_true] <;>
      omega

theorem C1_zoom_window_clamped_witness :
    (0 : Int) ≤ 10 ∧ (10 : Int) ≤ 100 - 0 ∧
    ((0 : Int) ≤ (getZoomRange 50 0 10 0 100 0 0).1 ∧
     (getZoomRange 50 0 10 0 100 0 0).2.1 ≤ 100 ∧
     ((50 + 0 - (10 : Int).tdiv 2 ≤ 0 ∨ (100 : Int) ≤ 50 + 0 + (10 : Int).tdiv 2) →
       (getZoomRange 50 0 10 0 100 0 0).2.1
         - (getZoomRange 50 0 10 0 100 0 0).1 = 10) ∧
     (¬(50 + 0 - (10 : Int).tdiv 2 ≤ 0 ∨ (100 : Int) ≤ 50 + 0 + (10 : Int).tdiv 2) →
       (getZoomRange 50 0 10 0 100 0 0).2.1
         - (getZoomRange 50 0 10 0 100 0 0).1 = 2 * (10 : Int).tdiv 2) ∧
     ((50 + 0 - (10 : Int).tdiv 2 ≤ 0 ∧ (100 : Int) ≤ 50 + 0 + (10 : Int).tdiv 2) →
       (getZoomRange 50 0 10 0 100 0 0).1 = 0 ∧
       (getZoomRange 50 0 10 0 100 0 0).2.1 = 100)) :=
  ⟨by decide, by decide,
    C1_zoom_window_clamped 50 0 10 0 100 0 0 (by decide) (by decide)⟩

/-- Claim C10 (confirmed): a pan while zoomed (`onNewFftCenterFreq`)
mutates no dialog state at all — in particular `m_fixedFreqMode` keeps
whatever value the most recent zoom event stored — and, when running, the
emitted `detailChanged` triple carries exactly the freshly clamped window
(`clampWindow` on the stored `m_currBw` span) together with the stored
`m_fixedFreqMode` flag, which is never recomputed on this path no matter
where the new window falls relative to the `minBwForZoom * relBw`
threshold. -/
theorem C10_pan_keeps_fixed_mode (s : PanoramicDialogState α) (f : Int)
    (w : WaterfallState α) (hw : s.waterfall = some w) :
    (onNewFftCenterFreq s f).1 = s ∧
    (onNewFftCenterFreq s f).2
      = (if s.running then
          some ((clampWindow (f + w.centerFreq) s.currBw
              (truncQ s.rangeStartSpin) (truncQ s.rangeEndSpin)).1,
            (clampWindow (f + w.centerFreq) s.currBw
              (truncQ s.rangeStartSpin) (truncQ s.rangeEndSpin)).2,
            s.fixedFreqMode)
         else none) := by
  unfold onNewFftCenterFreq
  rcases hr : s.running <;> simp [hr, hw]

theorem C10_pan_keeps_fixed_mode_witness :
    (⟨1, 2, 0, 0, ⟨0, 0, []⟩, 0, true, 4, true, false, 0, 0, 100,
        some ⟨7, 0, 0, 0, 1, 0, 0, false, none, 0, 0, 0, 0⟩⟩ :
        PanoramicDialogState Nat).waterfall
      = some ⟨7, 0, 0, 0, 1, 0, 0, false, none, 0, 0, 0, 0⟩ ∧
    ((onNewFftCenterFreq (⟨1, 2, 0, 0, ⟨0, 0, []⟩, 0, true, 4, true, false, 0,
        0, 100, some ⟨7, 0, 0, 0, 1, 0, 0, false, none, 0, 0, 0, 0⟩⟩ :
        PanoramicDialogState Nat) 3).1
      = ⟨1, 2, 0, 0, ⟨0, 0, []⟩, 0, true, 4, true, false, 0, 0, 100,
        some ⟨7, 0, 0, 0, 1, 0, 0, false, none, 0, 0, 0, 0⟩⟩ ∧
     (onNewFftCenterFreq (⟨1, 2, 0, 0, ⟨0, 0, []⟩, 0, true, 4, true, false, 0,
        0, 100, some ⟨7, 0, 0, 0, 1, 0, 0, false, none, 0, 0, 0, 0⟩⟩ :
        PanoramicDialogState Nat) 3).2
      = (if (⟨1, 2, 0, 0, ⟨0, 0, []⟩, 0, true, 4, true, false, 0, 0, 100,
            some ⟨7, 0, 0, 0, 1, 0, 0, false, none, 0, 0, 0, 0⟩⟩ :
            PanoramicDialogState Nat).running then
          some ((clampWindow (3 + (7 : Int)) 4 (truncQ 1) (truncQ 2)).1,
            (clampWindow (3 + (7 : Int)) 4 (truncQ 1) (truncQ 2)).2, true)
         else none)) :=
  ⟨rfl, C10_pan_keeps_fixed_mode _ 3 _ rfl⟩
